import Mathlib

/-
Shallow embedding of the terrain-generation core of src/script.js
(WebStrategyGame).  JavaScript numbers are modelled as exact rationals;
the SimplexNoise generator and Math.random are modelled as explicit
function parameters, since the embedded code only ever calls them.
-/

namespace WebStrategyGame

/-- A tile type record from the TILE_TYPES object (src/script.js lines
14-20).  `name` is the object key, `color` the hex color number. -/
structure TileTypeSpec where
  name : String
  color : Nat
  minHeight : ℚ
  baseElevation : ℚ
deriving DecidableEq

/-- TILE_TYPES.STONE (line 15). -/
def STONE : TileTypeSpec :=
  { name := "STONE", color := 0x888888, minHeight := 0.80, baseElevation := 1.0 }

/-- TILE_TYPES.GRASS_TREE (line 16). -/
def GRASS_TREE : TileTypeSpec :=
  { name := "GRASS_TREE", color := 0x228B22, minHeight := 0.65, baseElevation := 0.5 }

/-- TILE_TYPES.GRASS (line 17). -/
def GRASS : TileTypeSpec :=
  { name := "GRASS", color := 0x32CD32, minHeight := 0.45, baseElevation := 0.4 }

/-- TILE_TYPES.SAND (line 18). -/
def SAND : TileTypeSpec :=
  { name := "SAND", color := 0xF4A460, minHeight := 0.35, baseElevation := 0.1 }

/-- TILE_TYPES.WATER (line 19). -/
def WATER : TileTypeSpec :=
  { name := "WATER", color := 0x1E90FF, minHeight := 0.0, baseElevation := -0.5 }

/-- The TILE_TYPES object in JavaScript key-insertion order, which is the
order Object.keys enumerates (lines 14-20). -/
def tileTypesList : List TileTypeSpec := [STONE, GRASS_TREE, GRASS, SAND, WATER]

/-- MAP_SIZE (line 5). -/
def MAP_SIZE : Nat := 64

/-- TILE_SIZE (line 6). -/
def TILE_SIZE : ℚ := 1

/-- NOISE_SCALE (line 7). -/
def NOISE_SCALE : ℚ := 100

/-- halfMapSize (line 159). -/
def halfMapSize : ℚ := ((MAP_SIZE : ℚ) * TILE_SIZE) / 2

/-- treeProbability (line 160). -/
def treeProbability : ℚ := 0.4

/-- Insert a spec into a list sorted by descending minHeight.  Together
with `sortDesc` this embeds
Object.keys(TILE_TYPES).sort((a, b) => TILE_TYPES[b].minHeight - TILE_TYPES[a].minHeight)
(line 177): the comparator orders by descending minHeight, and the JS
sort is stable, which a stable insertion sort reproduces. -/
def insertDesc (s : TileTypeSpec) : List TileTypeSpec → List TileTypeSpec
  | [] => [s]
  | t :: ts => if t.minHeight ≤ s.minHeight then s :: t :: ts else t :: insertDesc s ts

/-- Stable sort by descending minHeight; see `insertDesc`. -/
def sortDesc : List TileTypeSpec → List TileTypeSpec
  | [] => []
  | s :: ss => insertDesc s (sortDesc ss)

/-- typeKeys as a list of specs rather than key strings: the tile-type
table sorted by descending minHeight (line 177). -/
def sortedTypes : List TileTypeSpec := sortDesc tileTypesList

/-- The key names of `sortedTypes`, i.e. the typeKeys array itself. -/
def typeKeys : List String := sortedTypes.map (fun s => s.name)

/-- The classification loop (lines 178-185): walk the descending-sorted
specs and return the first one whose minHeight <= noiseValue
(`noiseValue >= TILE_TYPES[typeName].minHeight`), breaking there;
`none` when no entry matches, in which case the surrounding code keeps
its initial default. -/
def firstMatch : List TileTypeSpec → ℚ → Option TileTypeSpec
  | [], _ => none
  | s :: rest, v => if s.minHeight ≤ v then some s else firstMatch rest v

/-- Full per-coordinate classification (lines 172-185): currentTileType
starts at TILE_TYPES.WATER and is replaced by the first matching entry
of the descending-sorted table, so an unmatched value keeps the WATER
default. -/
def classify (v : ℚ) : TileTypeSpec := (firstMatch sortedTypes v).getD WATER

/-- The table.WATER property access of lines 172-174 on an arbitrary
table: the entry stored under the key WATER, or undefined (`none`) when
the table has no such key. -/
def findWater (table : List TileTypeSpec) : Option TileTypeSpec :=
  table.find? (fun s => s.name = "WATER")

/-- The TypeError raised by line 174 when TILE_TYPES.WATER is
undefined: reading .baseElevation of undefined throws. -/
def waterUndefinedTypeError : String :=
  "TypeError: cannot read baseElevation of undefined"

/-- Lines 172-185 run against an arbitrary tile-type table, as in the
generate interface: lines 172-174 first evaluate table.WATER (the
default) and read its baseElevation, which throws a TypeError when the
table has no WATER key; otherwise the loop over the descending-sorted
entries replaces the default with the first match, and an unmatched
noise value keeps the table's own WATER entry. -/
def classifyTable (table : List TileTypeSpec) (v : ℚ) : Except String TileTypeSpec :=
  match findWater table with
  | none => Except.error waterUndefinedTypeError
  | some w => Except.ok ((firstMatch (sortDesc table) v).getD w)

/-- TILE_TYPES[k] lookup by key name (lines 178-182, 196). -/
def specOfKey (k : String) : TileTypeSpec :=
  (tileTypesList.find? (fun s => s.name = k)).getD WATER

/-- The dead lowerBound computation (lines 192-197): find the key whose
cached material is the chosen one (Object.keys(materials) enumerates in
TILE_TYPES insertion order, and each key has a distinct material, so
this finds the chosen type's key), locate it in typeKeys, and take the
next lower entry's minHeight, else keep the initial 0. -/
def lowerBoundOf (v : ℚ) : ℚ :=
  let matKey := (tileTypesList.map (fun s => s.name)).find? (fun k => k = (classify v).name)
  let currentTypeIndex := typeKeys.indexOf (matKey.getD "")
  if currentTypeIndex < typeKeys.length - 1 then
    (specOfKey (typeKeys.getD (currentTypeIndex + 1) "")).minHeight
  else 0

/-- heightVariation (lines 190-201): 0 for the WATER type, else
normalizedHeight * 0.3 where
normalizedHeight = (noiseValue - minHeight) / (1 - minHeight).
This is the version with the unused lowerBound local removed. -/
def heightVariation (v : ℚ) : ℚ :=
  if classify v ≠ WATER then
    ((v - (classify v).minHeight) / (1 - (classify v).minHeight)) * 0.3
  else 0

/-- heightVariation exactly as written (lines 190-201), including the
lowerBound local that the remainder of the function never reads. -/
def heightVariationFull (v : ℚ) : ℚ :=
  if classify v ≠ WATER then
    let _lowerBound := lowerBoundOf v
    ((v - (classify v).minHeight) / (1 - (classify v).minHeight)) * 0.3
  else 0

/-- finalElevation = elevation + heightVariation (line 203), where
elevation is the selected type's baseElevation (lines 174, 182). -/
def finalElevation (v : ℚ) : ℚ := (classify v).baseElevation + heightVariation v

/-- finalElevation built on `heightVariationFull`. -/
def finalElevationFull (v : ℚ) : ℚ := (classify v).baseElevation + heightVariationFull v

/-- tileHeight (lines 205-211): non-WATER tiles get
TILE_SIZE + (finalElevation - WATER.baseElevation), WATER tiles get
TILE_SIZE * 0.2. -/
def tileHeight (v : ℚ) : ℚ :=
  if classify v ≠ WATER then TILE_SIZE + (finalElevation v - WATER.baseElevation)
  else TILE_SIZE * 0.2

/-- tileHeight built on `finalElevationFull`. -/
def tileHeightFull (v : ℚ) : ℚ :=
  if classify v ≠ WATER then TILE_SIZE + (finalElevationFull v - WATER.baseElevation)
  else TILE_SIZE * 0.2

/-- tileMesh.position.y (line 217):
finalElevation - (tileHeight/2 - TILE_SIZE/2). -/
def tilePosY (v : ℚ) : ℚ := finalElevation v - (tileHeight v / 2 - TILE_SIZE / 2)

/-- tilePosY built on the Full chain. -/
def tilePosYFull (v : ℚ) : ℚ :=
  finalElevationFull v - (tileHeightFull v / 2 - TILE_SIZE / 2)

/-- tileMesh.scale.y (line 216): tileHeight / TILE_SIZE. -/
def tileScaleY (v : ℚ) : ℚ := tileHeight v / TILE_SIZE

/-- tileScaleY built on the Full chain. -/
def tileScaleYFull (v : ℚ) : ℚ := tileHeightFull v / TILE_SIZE

/-- worldX / worldZ (lines 165-166):
grid * TILE_SIZE - halfMapSize + TILE_SIZE/2. -/
def worldCoord (i : Nat) : ℚ := (i : ℚ) * TILE_SIZE - halfMapSize + TILE_SIZE / 2

/-- noiseValue (line 169): the noise sample at
(x / NOISE_SCALE, z / NOISE_SCALE), mapped by (n + 1) / 2. -/
def noiseValue (noise : ℚ → ℚ → ℚ) (x z : Nat) : ℚ :=
  (noise ((x : ℚ) / NOISE_SCALE) ((z : ℚ) / NOISE_SCALE) + 1) / 2

/-- One generated tile: grid coordinate, world position, normalized
noise value, selected type, finalElevation, tileHeight, and the mesh's
vertical center and y-scale (lines 162-220). -/
structure Tile where
  x : Nat
  z : Nat
  worldX : ℚ
  worldZ : ℚ
  noise : ℚ
  type : TileTypeSpec
  elevation : ℚ
  height : ℚ
  posY : ℚ
  scaleY : ℚ
deriving DecidableEq

/-- A placed tree, reduced to the data the spec's VegetationInstance
names: the world position and the anchor height treeBaseY =
finalElevation + TILE_SIZE/2 (line 233). -/
structure VegetationInstance where
  worldX : ℚ
  worldZ : ℚ
  baseY : ℚ
deriving DecidableEq

/-- The per-coordinate tile computation of the generation loop body
(lines 165-220). -/
def generateTile (noise : ℚ → ℚ → ℚ) (x z : Nat) : Tile :=
  let v := noiseValue noise x z
  { x := x, z := z, worldX := worldCoord x, worldZ := worldCoord z, noise := v,
    type := classify v, elevation := finalElevation v, height := tileHeight v,
    posY := tilePosY v, scaleY := tileScaleY v }

/-- `generateTile` built on the Full chain, lowerBound included. -/
def generateTileFull (noise : ℚ → ℚ → ℚ) (x z : Nat) : Tile :=
  let v := noiseValue noise x z
  { x := x, z := z, worldX := worldCoord x, worldZ := worldCoord z, noise := v,
    type := classify v, elevation := finalElevationFull v, height := tileHeightFull v,
    posY := tilePosYFull v, scaleY := tileScaleYFull v }

/-- One loop-body step (lines 165-245): the tile, plus the tree trial of
line 223.  Math.random is modelled as the stream `rand` read at index
`n`; the && short-circuits, so the stream index advances exactly on
GRASS_TREE tiles, and on success one VegetationInstance is emitted with
baseY = finalElevation + TILE_SIZE/2. -/
def stepTile (noise : ℚ → ℚ → ℚ) (rand : Nat → ℚ) (x z n : Nat) :
    Tile × Option VegetationInstance × Nat :=
  let t := generateTile noise x z
  if t.type = GRASS_TREE then
    if rand n < treeProbability then
      (t, some { worldX := t.worldX, worldZ := t.worldZ,
                 baseY := t.elevation + TILE_SIZE / 2 }, n + 1)
    else (t, none, n + 1)
  else (t, none, n)

/-- `stepTile` built on `generateTileFull`. -/
def stepTileFull (noise : ℚ → ℚ → ℚ) (rand : Nat → ℚ) (x z n : Nat) :
    Tile × Option VegetationInstance × Nat :=
  let t := generateTileFull noise x z
  if t.type = GRASS_TREE then
    if rand n < treeProbability then
      (t, some { worldX := t.worldX, worldZ := t.worldZ,
                 baseY := t.elevation + TILE_SIZE / 2 }, n + 1)
    else (t, none, n + 1)
  else (t, none, n)

/-- The iteration order of the generation loops (lines 162-163): outer
loop over x, inner loop over z, both 0 .. MAP_SIZE-1. -/
def coordList : List (Nat × Nat) :=
  (List.range MAP_SIZE).flatMap (fun x => (List.range MAP_SIZE).map (fun z => (x, z)))

/-- Fold step accumulating tiles, vegetation and the random-stream
index across the loop body. -/
def genStep (noise : ℚ → ℚ → ℚ) (rand : Nat → ℚ)
    (acc : List Tile × List VegetationInstance × Nat) (c : Nat × Nat) :
    List Tile × List VegetationInstance × Nat :=
  let r := stepTile noise rand c.1 c.2 acc.2.2
  (acc.1 ++ [r.1],
   (match r.2.1 with
    | some veg => acc.2.1 ++ [veg]
    | none => acc.2.1),
   r.2.2)

/-- `genStep` built on `stepTileFull`. -/
def genStepFull (noise : ℚ → ℚ → ℚ) (rand : Nat → ℚ)
    (acc : List Tile × List VegetationInstance × Nat) (c : Nat × Nat) :
    List Tile × List VegetationInstance × Nat :=
  let r := stepTileFull noise rand c.1 c.2 acc.2.2
  (acc.1 ++ [r.1],
   (match r.2.1 with
    | some veg => acc.2.1 ++ [veg]
    | none => acc.2.1),
   r.2.2)

/-- generateMap (lines 140-255), restricted to its generation output:
all tiles in loop order and all emitted vegetation instances. -/
def generateMap (noise : ℚ → ℚ → ℚ) (rand : Nat → ℚ) :
    List Tile × List VegetationInstance :=
  let r := coordList.foldl (genStep noise rand) ([], [], 0)
  (r.1, r.2.1)

/-- generateMap built on the Full chain, lowerBound included. -/
def generateMapFull (noise : ℚ → ℚ → ℚ) (rand : Nat → ℚ) :
    List Tile × List VegetationInstance :=
  let r := coordList.foldl (genStepFull noise rand) ([], [], 0)
  (r.1, r.2.1)

/-- Vertical coordinate of the top face of the rendered tile volume: the
unit BoxGeometry (line 143) has height TILE_SIZE, is scaled by scaleY
(line 216) and centered at posY (line 217), so its top face is at
posY + (TILE_SIZE * scaleY) / 2. -/
def tileTop (t : Tile) : ℚ := t.posY + (TILE_SIZE * t.scaleY) / 2

/- ------------------------------------------------------------------ -/
/- Helper lemmas -/

theorem sortedTypes_eq : sortedTypes = [STONE, GRASS_TREE, GRASS, SAND, WATER] := by
  norm_num [sortedTypes, sortDesc, insertDesc, tileTypesList,
    STONE, GRASS_TREE, GRASS, SAND, WATER]

/-- Classification unfolded over the concrete table. -/
theorem classify_eq (v : ℚ) :
    classify v =
      if STONE.minHeight ≤ v then STONE
      else if GRASS_TREE.minHeight ≤ v then GRASS_TREE
      else if GRASS.minHeight ≤ v then GRASS
      else if SAND.minHeight ≤ v then SAND
      else WATER := by
  unfold classify
  rw [sortedTypes_eq]
  simp only [firstMatch]
  split_ifs <;> simp_all [Option.getD]

theorem classify_stone {v : ℚ} (h : (0.80 : ℚ) ≤ v) : classify v = STONE := by
  rw [classify_eq]
  simp only [STONE, GRASS_TREE, GRASS, SAND, WATER]
  split_ifs <;> first | rfl | (exfalso; linarith)

theorem classify_gtree {v : ℚ} (h1 : (0.65 : ℚ) ≤ v) (h2 : v < 0.80) :
    classify v = GRASS_TREE := by
  rw [classify_eq]
  simp only [STONE, GRASS_TREE, GRASS, SAND, WATER]
  split_ifs <;> first | rfl | (exfalso; linarith)

theorem classify_grass {v : ℚ} (h1 : (0.45 : ℚ) ≤ v) (h2 : v < 0.65) :
    classify v = GRASS := by
  rw [classify_eq]
  simp only [STONE, GRASS_TREE, GRASS, SAND, WATER]
  split_ifs <;> first | rfl | (exfalso; linarith)

theorem classify_sand {v : ℚ} (h1 : (0.35 : ℚ) ≤ v) (h2 : v < 0.45) :
    classify v = SAND := by
  rw [classify_eq]
  simp only [STONE, GRASS_TREE, GRASS, SAND, WATER]
  split_ifs <;> first | rfl | (exfalso; linarith)

theorem classify_water {v : ℚ} (h : v < 0.35) : classify v = WATER := by
  rw [classify_eq]
  simp only [STONE, GRASS_TREE, GRASS, SAND, WATER]
  split_ifs <;> first | rfl | (exfalso; linarith)

/-- For noise values below 0, no table entry matches the loop test. -/
theorem firstMatch_neg {v : ℚ} (h : v < 0) : firstMatch sortedTypes v = none := by
  rw [sortedTypes_eq]
  simp only [firstMatch, STONE, GRASS_TREE, GRASS, SAND, WATER]
  split_ifs <;> first | rfl | (exfalso; linarith)

/-- For nonnegative noise values the classification loop finds a match,
and the match is the classification result. -/
theorem firstMatch_nonneg {v : ℚ} (h0 : 0 ≤ v) :
    firstMatch sortedTypes v = some (classify v) := by
  rw [classify_eq, sortedTypes_eq]
  simp only [firstMatch, STONE, GRASS_TREE, GRASS, SAND, WATER]
  split_ifs <;> first | rfl | (exfalso; linarith)

/- ------------------------------------------------------------------ -/
/- Claims -/

/-- C1: for every noise value in [0,1] the classification loop finds a
match and the match is what classification returns (so exactly one
TileTypeSpec is selected and classification never falls through), the
selected spec satisfies minHeight <= noiseValue, and no table entry
with strictly higher minHeight also satisfies minHeight <= noiseValue. -/
theorem claim1_classification_total (v : ℚ) (h0 : 0 ≤ v) (h1 : v ≤ 1) :
    firstMatch sortedTypes v = some (classify v) ∧
    (classify v).minHeight ≤ v ∧
    ∀ s ∈ tileTypesList, (classify v).minHeight < s.minHeight → ¬ s.minHeight ≤ v := by
  refine ⟨firstMatch_nonneg h0, ?_⟩
  rcases le_or_lt (0.80 : ℚ) v with h | h
  · rw [classify_stone h]
    refine ⟨by simp only [STONE]; linarith, ?_⟩
    intro s hs
    simp only [tileTypesList] at hs
    fin_cases hs <;> simp only [STONE, GRASS_TREE, GRASS, SAND, WATER] <;>
      intro hlt hle <;> linarith
  rcases le_or_lt (0.65 : ℚ) v with h2 | h2
  · rw [classify_gtree h2 h]
    refine ⟨by simp only [GRASS_TREE]; linarith, ?_⟩
    intro s hs
    simp only [tileTypesList] at hs
    fin_cases hs <;> simp only [STONE, GRASS_TREE, GRASS, SAND, WATER] <;>
      intro hlt hle <;> linarith
  rcases le_or_lt (0.45 : ℚ) v with h3 | h3
  · rw [classify_grass h3 h2]
    refine ⟨by simp only [GRASS]; linarith, ?_⟩
    intro s hs
    simp only [tileTypesList] at hs
    fin_cases hs <;> simp only [STONE, GRASS_TREE, GRASS, SAND, WATER] <;>
      intro hlt hle <;> linarith
  rcases le_or_lt (0.35 : ℚ) v with h4 | h4
  · rw [classify_sand h4 h3]
    refine ⟨by simp only [SAND]; linarith, ?_⟩
    intro s hs
    simp only [tileTypesList] at hs
    fin_cases hs <;> simp only [STONE, GRASS_TREE, GRASS, SAND, WATER] <;>
      intro hlt hle <;> linarith
  · rw [classify_water h4]
    refine ⟨by simp only [WATER]; linarith, ?_⟩
    intro s hs
    simp only [tileTypesList] at hs
    fin_cases hs <;> simp only [STONE, GRASS_TREE, GRASS, SAND, WATER] <;>
      intro hlt hle <;> linarith

theorem claim1_witness :
    firstMatch sortedTypes (1/2 : ℚ) = some (classify (1/2 : ℚ)) ∧
    (classify (1/2 : ℚ)).minHeight ≤ (1/2 : ℚ) ∧
    ∀ s ∈ tileTypesList,
      (classify (1/2 : ℚ)).minHeight < s.minHeight → ¬ s.minHeight ≤ (1/2 : ℚ) :=
  claim1_classification_total (1/2) (by norm_num) (by norm_num)

/-- C2: every tile's finalElevation is the selected type's baseElevation
plus heightVariation; heightVariation is 0 when the selected type is
WATER, and for every other type it is
0.3 * (noiseValue - minHeight) / (1 - minHeight), with the uniform
denominator 1 - minHeight. -/
theorem claim2_elevation_shaping (v : ℚ) :
    finalElevation v = (classify v).baseElevation + heightVariation v ∧
    (classify v = WATER → heightVariation v = 0) ∧
    (classify v ≠ WATER →
      heightVariation v =
        0.3 * ((v - (classify v).minHeight) / (1 - (classify v).minHeight))) := by
  refine ⟨rfl, fun h => ?_, fun h => ?_⟩
  · simp [heightVariation, h]
  · unfold heightVariation
    rw [if_pos h]
    ring

theorem claim2_witness :
    classify (0.9 : ℚ) ≠ WATER ∧
    heightVariation (0.9 : ℚ) =
      0.3 * (((0.9 : ℚ) - (classify (0.9 : ℚ)).minHeight) /
        (1 - (classify (0.9 : ℚ)).minHeight)) := by
  have hne : classify (0.9 : ℚ) ≠ WATER := by
    rw [classify_stone (by norm_num)]
    simp [STONE, WATER]
  exact ⟨hne, (claim2_elevation_shaping 0.9).2.2 hne⟩

/-- C3: a tile whose selected type is WATER gets render height
TILE_SIZE * 0.2; a tile of any other type gets render height
TILE_SIZE + (finalElevation - WATER.baseElevation). -/
theorem claim3_render_height (noise : ℚ → ℚ → ℚ) (x z : Nat) :
    ((generateTile noise x z).type = WATER →
      (generateTile noise x z).height = TILE_SIZE * 0.2) ∧
    ((generateTile noise x z).type ≠ WATER →
      (generateTile noise x z).height =
        TILE_SIZE + ((generateTile noise x z).elevation - WATER.baseElevation)) := by
  constructor <;> intro h <;> simp only [generateTile] at h ⊢
  · simp [tileHeight, h]
  · unfold tileHeight
    rw [if_pos h]

theorem claim3_witness :
    (generateTile (fun _ _ => -1) 0 0).height = TILE_SIZE * 0.2 ∧
    (generateTile (fun _ _ => 0.8) 0 0).height =
      TILE_SIZE + ((generateTile (fun _ _ => 0.8) 0 0).elevation - WATER.baseElevation) := by
  have hv1 : noiseValue (fun _ _ => (-1 : ℚ)) 0 0 = 0 := by norm_num [noiseValue]
  have hv2 : noiseValue (fun _ _ => (0.8 : ℚ)) 0 0 = 0.9 := by norm_num [noiseValue]
  have ht1 : (generateTile (fun _ _ => (-1 : ℚ)) 0 0).type = WATER := by
    simp only [generateTile, hv1]
    exact classify_water (by norm_num)
  have ht2 : (generateTile (fun _ _ => (0.8 : ℚ)) 0 0).type ≠ WATER := by
    simp only [generateTile, hv2]
    rw [classify_stone (by norm_num)]
    simp [STONE, WATER]
  exact ⟨(claim3_render_height _ 0 0).1 ht1, (claim3_render_height _ 0 0).2 ht2⟩

/-- C4 (amended): the tile volume's vertical center is at
finalElevation - (height - TILE_SIZE)/2 and the unit-height volume is
scaled by height/TILE_SIZE, as the claim states, but consequently the
volume's top face sits at finalElevation + TILE_SIZE/2 (the tile's top
surface, where trees are anchored), not at finalElevation. -/
theorem claim4_vertical_placement (noise : ℚ → ℚ → ℚ) (x z : Nat) :
    (generateTile noise x z).posY =
      (generateTile noise x z).elevation -
        ((generateTile noise x z).height - TILE_SIZE) / 2 ∧
    (generateTile noise x z).scaleY = (generateTile noise x z).height / TILE_SIZE ∧
    tileTop (generateTile noise x z) =
      (generateTile noise x z).elevation + TILE_SIZE / 2 := by
  refine ⟨?_, ?_, ?_⟩
  · simp only [generateTile, tilePosY, TILE_SIZE]
    ring
  · rfl
  · simp only [generateTile, tileTop, tilePosY, tileScaleY, TILE_SIZE]
    ring

/-- C4 counterexample: at the concrete noise input 0 (noiseValue 1/2)
the top face of the tile volume is not at finalElevation. -/
theorem claim4_counterexample :
    tileTop (generateTile (fun _ _ => 0) 0 0) ≠
      (generateTile (fun _ _ => 0) 0 0).elevation := by
  simp only [generateTile, tileTop, tilePosY, tileScaleY, TILE_SIZE]
  intro h
  rw [div_one] at h
  linarith

/-- C7: over [0,1], the classification is monotone in the noise value:
larger noise values never select a type with smaller baseElevation. -/
theorem claim7_monotone_base_elevation (v1 v2 : ℚ)
    (h0 : 0 ≤ v1) (h12 : v1 ≤ v2) (h1 : v2 ≤ 1) :
    (classify v1).baseElevation ≤ (classify v2).baseElevation := by
  rw [classify_eq v1, classify_eq v2]
  split_ifs <;> simp only [STONE, GRASS_TREE, GRASS, SAND, WATER] <;> linarith

theorem claim7_witness :
    (classify (0.2 : ℚ)).baseElevation ≤ (classify (0.9 : ℚ)).baseElevation :=
  claim7_monotone_base_elevation 0.2 0.9 (by norm_num) (by norm_num) (by norm_num)

/-- C10: for every noise value strictly below 0, no table entry passes
the loop test (WATER's included), the classification loop finds no
match, and the tile keeps the initial WATER default, so a type is
assigned for every rational noise value. -/
theorem claim10_below_range_defaults_water (v : ℚ) (h : v < 0) :
    firstMatch sortedTypes v = none ∧
    classify v = WATER ∧
    ∀ s ∈ tileTypesList, ¬ s.minHeight ≤ v := by
  refine ⟨firstMatch_neg h, classify_water (by linarith), ?_⟩
  intro s hs
  simp only [tileTypesList] at hs
  fin_cases hs <;> simp only [STONE, GRASS_TREE, GRASS, SAND, WATER] <;>
    intro hle <;> linarith

theorem claim10_witness :
    firstMatch sortedTypes (-1 : ℚ) = none ∧ classify (-1 : ℚ) = WATER :=
  ⟨(claim10_below_range_defaults_water (-1) (by norm_num)).1,
   (claim10_below_range_defaults_water (-1) (by norm_num)).2.1⟩

/- Membership lemmas for the sort and the matching loop. -/

theorem mem_insertDesc {a s : TileTypeSpec} {l : List TileTypeSpec}
    (h : a ∈ insertDesc s l) : a = s ∨ a ∈ l := by
  induction l with
  | nil => simpa [insertDesc] using h
  | cons t ts ih =>
    simp only [insertDesc] at h
    split_ifs at h
    · exact List.mem_cons.mp h
    · rcases List.mem_cons.mp h with h | h
      · exact Or.inr (List.mem_cons.mpr (Or.inl h))
      · rcases ih h with h | h
        · exact Or.inl h
        · exact Or.inr (List.mem_cons_of_mem _ h)

theorem mem_sortDesc {a : TileTypeSpec} {l : List TileTypeSpec}
    (h : a ∈ sortDesc l) : a ∈ l := by
  induction l with
  | nil => simpa [sortDesc] using h
  | cons s ss ih =>
    simp only [sortDesc] at h
    rcases mem_insertDesc h with h | h
    · simp [h]
    · exact List.mem_cons_of_mem _ (ih h)

theorem firstMatch_mem {l : List TileTypeSpec} {v : ℚ} {s : TileTypeSpec}
    (h : firstMatch l v = some s) : s ∈ l := by
  induction l with
  | nil => simp [firstMatch] at h
  | cons t ts ih =>
    simp only [firstMatch] at h
    split_ifs at h
    · injection h with h
      subst h
      exact List.mem_cons_self _ _
    · exact List.mem_cons_of_mem _ (ih h)

/-- A second stone band sharing STONE's threshold, making a table with
non-distinct minHeight values (malformed per the configuration
invariant). -/
def STONE_DUP : TileTypeSpec :=
  { name := "STONE_DUP", color := 0x777777, minHeight := 0.80, baseElevation := 0.9 }

/-- Concrete table.WATER lookups: absent from the one-entry table,
present in the duplicate-threshold table and in the real table. -/
theorem findWater_stone_only : findWater [STONE] = none := by decide

theorem findWater_dup_table : findWater [STONE, STONE_DUP, WATER] = some WATER := by
  norm_num [findWater, STONE, STONE_DUP, WATER] <;> decide

theorem findWater_full_table : findWater tileTypesList = some WATER := by
  norm_num [findWater, tileTypesList, STONE, GRASS_TREE, GRASS, SAND, WATER] <;> decide

/-- C5 counterexample: the malformed table [STONE, STONE_DUP, WATER]
(two entries share minHeight 0.80, so thresholds are not distinct) is
not detected or rejected by anything: the per-tile classification code
runs on it and returns a normal result (the first-listed duplicate),
with no error of any kind.  The WATER-less table [STONE] is not
rejected at configuration-load time either: the failure it causes is
the TypeError of line 174, raised per tile during generation. -/
theorem claim5_counterexample :
    STONE.minHeight = STONE_DUP.minHeight ∧
    classifyTable [STONE, STONE_DUP, WATER] (0.9 : ℚ) = Except.ok STONE ∧
    classifyTable [STONE] (0.1 : ℚ) = Except.error waterUndefinedTypeError := by
  refine ⟨rfl, ?_, ?_⟩
  · simp only [classifyTable, findWater_dup_table]
    norm_num [sortDesc, insertDesc, firstMatch, STONE, STONE_DUP, WATER]
  · simp only [classifyTable, findWater_stone_only]

/-- C5 (amended): the core performs no configuration-load validation
and no ConfigurationError exists.  For every table with a WATER entry
— malformed or not — per-tile classification succeeds and returns an
entry of the table (the matched spec, or the table's WATER default);
for every table without a WATER entry, every tile's computation fails
with the line-174 TypeError, so the problem surfaces mid-generation
rather than at configuration load. -/
theorem claim5_no_validation (table : List TileTypeSpec) (v : ℚ) :
    (∀ w, findWater table = some w →
      ∃ s ∈ table, classifyTable table v = Except.ok s) ∧
    (findWater table = none →
      classifyTable table v = Except.error waterUndefinedTypeError) := by
  constructor
  · intro w hw
    rcases hm : firstMatch (sortDesc table) v with _ | s
    · exact ⟨w, List.mem_of_find?_eq_some hw, by simp [classifyTable, hw, hm]⟩
    · exact ⟨s, mem_sortDesc (firstMatch_mem hm), by simp [classifyTable, hw, hm]⟩
  · intro hnone
    simp [classifyTable, hnone]

theorem claim5_witness :
    classifyTable [STONE] (0.2 : ℚ) = Except.error waterUndefinedTypeError ∧
    ∃ s ∈ tileTypesList, classifyTable tileTypesList (0.2 : ℚ) = Except.ok s :=
  ⟨(claim5_no_validation [STONE] 0.2).2 findWater_stone_only,
   (claim5_no_validation tileTypesList 0.2).1 WATER findWater_full_table⟩

/-- The tile component of the loop body never reads the random stream
or the trial counter: it is the generated tile itself. -/
theorem stepTile_fst (noise : ℚ → ℚ → ℚ) (rand : Nat → ℚ) (x z n : Nat) :
    (stepTile noise rand x z n).1 = generateTile noise x z := by
  simp only [stepTile]
  split_ifs <;> rfl

theorem genStep_fst (noise : ℚ → ℚ → ℚ) (rand : Nat → ℚ)
    (acc : List Tile × List VegetationInstance × Nat) (c : Nat × Nat) :
    (genStep noise rand acc c).1 = acc.1 ++ [generateTile noise c.1 c.2] := by
  simp only [genStep, stepTile_fst]

/-- The accumulated tile list of the generation fold, in closed form:
one tile per coordinate, independent of the random stream and of the
trial counter. -/
theorem foldl_genStep_fst (noise : ℚ → ℚ → ℚ) (rand : Nat → ℚ) :
    ∀ (cs : List (Nat × Nat)) (acc : List Tile × List VegetationInstance × Nat),
      (cs.foldl (genStep noise rand) acc).1 =
        acc.1 ++ cs.map (fun c => generateTile noise c.1 c.2) := by
  intro cs
  induction cs with
  | nil => intro acc; simp
  | cons c cs ih =>
    intro acc
    rw [List.foldl_cons, ih, genStep_fst]
    simp

/-- The tile grid produced by generation never reads the random
stream: it is the per-coordinate tile computation mapped over the loop
order. -/
theorem generateMap_fst (noise : ℚ → ℚ → ℚ) (rand : Nat → ℚ) :
    (generateMap noise rand).1 =
      coordList.map (fun c => generateTile noise c.1 c.2) := by
  simp only [generateMap]
  rw [foldl_genStep_fst]
  simp

/-- C6: generation is deterministic.  With noise sources that agree on
every sample, the tile grids — classifications, noise values, final
elevations, heights — are identical even when the random streams
differ (tiles never read the stream); and when the random streams also
agree at every index, the whole output, vegetation placement included,
is identical. -/
theorem claim6_determinism (n1 n2 : ℚ → ℚ → ℚ) (r1 r2 : Nat → ℚ)
    (hnoise : ∀ a b, n1 a b = n2 a b) :
    (generateMap n1 r1).1 = (generateMap n2 r2).1 ∧
    ((∀ k, r1 k = r2 k) → generateMap n1 r1 = generateMap n2 r2) := by
  have h1 : n1 = n2 := funext fun a => funext fun b => hnoise a b
  constructor
  · rw [generateMap_fst, generateMap_fst, h1]
  · intro hrand
    have h2 : r1 = r2 := funext hrand
    rw [h1, h2]

theorem claim6_witness :
    (generateMap (fun _ _ => 0) (fun _ => 0)).1 =
      (generateMap (fun _ _ => 0) (fun _ => 1)).1 ∧
    generateMap (fun _ _ => 0) (fun _ => 0) = generateMap (fun _ _ => 0) (fun _ => 0) :=
  ⟨(claim6_determinism (fun _ _ => 0) (fun _ _ => 0) (fun _ => 0) (fun _ => 1)
      (fun _ _ => rfl)).1,
   (claim6_determinism (fun _ _ => 0) (fun _ _ => 0) (fun _ => 0) (fun _ => 0)
      (fun _ _ => rfl)).2 (fun _ => rfl)⟩

/- Computation lemmas for the tree trial. -/

theorem stepTile_tree_success {noise : ℚ → ℚ → ℚ} {rand : Nat → ℚ} {x z n : Nat}
    (hg : (generateTile noise x z).type = GRASS_TREE)
    (hr : rand n < treeProbability) :
    stepTile noise rand x z n =
      (generateTile noise x z,
       some { worldX := (generateTile noise x z).worldX,
              worldZ := (generateTile noise x z).worldZ,
              baseY := (generateTile noise x z).elevation + TILE_SIZE / 2 },
       n + 1) := by
  simp only [stepTile]
  rw [if_pos hg, if_pos hr]

theorem stepTile_tree_fail {noise : ℚ → ℚ → ℚ} {rand : Nat → ℚ} {x z n : Nat}
    (hg : (generateTile noise x z).type = GRASS_TREE)
    (hr : ¬ rand n < treeProbability) :
    stepTile noise rand x z n = (generateTile noise x z, none, n + 1) := by
  simp only [stepTile]
  rw [if_pos hg, if_neg hr]

theorem stepTile_no_tree {noise : ℚ → ℚ → ℚ} {rand : Nat → ℚ} {x z n : Nat}
    (hg : (generateTile noise x z).type ≠ GRASS_TREE) :
    stepTile noise rand x z n = (generateTile noise x z, none, n) := by
  simp only [stepTile]
  rw [if_neg hg]

/-- C8: a vegetation instance is emitted only when the tile's type is
GRASS_TREE; at most one per tile (the emission is an Option); on a
GRASS_TREE tile exactly one random trial is consumed and it succeeds
exactly when the draw is below treeProbability = 0.4; the emitted
instance sits at the tile's world position with
baseY = finalElevation + TILE_SIZE/2; and a tile of any other type
(STONE included) emits nothing and consumes no trial. -/
theorem claim8_vegetation_invariant (noise : ℚ → ℚ → ℚ) (rand : Nat → ℚ) (x z n : Nat) :
    (∀ veg, (stepTile noise rand x z n).2.1 = some veg →
      (generateTile noise x z).type = GRASS_TREE ∧
      veg.baseY = (generateTile noise x z).elevation + TILE_SIZE / 2 ∧
      veg.worldX = (generateTile noise x z).worldX ∧
      veg.worldZ = (generateTile noise x z).worldZ) ∧
    ((generateTile noise x z).type = GRASS_TREE →
      ((stepTile noise rand x z n).2.1.isSome ↔ rand n < treeProbability) ∧
      (stepTile noise rand x z n).2.2 = n + 1) ∧
    ((generateTile noise x z).type ≠ GRASS_TREE →
      (stepTile noise rand x z n).2.1 = none ∧
      (stepTile noise rand x z n).2.2 = n) ∧
    treeProbability = 0.4 := by
  by_cases hg : (generateTile noise x z).type = GRASS_TREE
  · by_cases hr : rand n < treeProbability
    · rw [stepTile_tree_success hg hr]
      refine ⟨?_, fun _ => ⟨by simp [hr], rfl⟩, fun hn => absurd hg hn, rfl⟩
      intro veg hveg
      rw [Option.some.injEq] at hveg
      subst hveg
      exact ⟨hg, rfl, rfl, rfl⟩
    · rw [stepTile_tree_fail hg hr]
      refine ⟨?_, fun _ => ⟨by simp [hr], rfl⟩, fun hn => absurd hg hn, rfl⟩
      intro veg hveg
      simp at hveg
  · rw [stepTile_no_tree hg]
    refine ⟨?_, fun h => absurd h hg, fun _ => ⟨rfl, rfl⟩, rfl⟩
    intro veg hveg
    simp at hveg

theorem claim8_witness :
    (stepTile (fun _ _ => 0.4) (fun _ => 0) 0 0 0).2.2 = 1 ∧
    (stepTile (fun _ _ => 0.8) (fun _ => 0) 0 0 5).2.1 = none := by
  have hv1 : noiseValue (fun _ _ => (0.4 : ℚ)) 0 0 = 0.7 := by norm_num [noiseValue]
  have hv2 : noiseValue (fun _ _ => (0.8 : ℚ)) 0 0 = 0.9 := by norm_num [noiseValue]
  have hg1 : (generateTile (fun _ _ => (0.4 : ℚ)) 0 0).type = GRASS_TREE := by
    simp only [generateTile, hv1]
    exact classify_gtree (by norm_num) (by norm_num)
  have hg2 : (generateTile (fun _ _ => (0.8 : ℚ)) 0 0).type ≠ GRASS_TREE := by
    simp only [generateTile, hv2]
    rw [classify_stone (by norm_num)]
    simp [STONE, GRASS_TREE]
  exact ⟨((claim8_vegetation_invariant (fun _ _ => 0.4) (fun _ => 0) 0 0 0).2.1 hg1).2,
         ((claim8_vegetation_invariant (fun _ _ => 0.8) (fun _ => 0) 0 0 5).2.2.1 hg2).1⟩

/-- The dead lowerBound really is the next lower band's threshold: on
the STONE band it evaluates to GRASS_TREE's minHeight. -/
theorem lowerBoundOf_at_stone {v : ℚ} (h : (0.80 : ℚ) ≤ v) :
    lowerBoundOf v = GRASS_TREE.minHeight := by
  simp [lowerBoundOf, classify_stone h, typeKeys, sortedTypes_eq, tileTypesList,
    specOfKey, STONE, GRASS_TREE, GRASS, SAND, WATER]

/-- The loop-body step with and without the dead lowerBound local are
the same function: the binding is removed by zeta reduction. -/
theorem genStepFull_eq_genStep (noise : ℚ → ℚ → ℚ) (rand : Nat → ℚ) :
    genStepFull noise rand = genStep noise rand :=
  funext fun _ => funext fun _ => rfl

/-- C9: the lowerBound value (lines 192-197) never influences any
output: generation with the lowerBound local bound exactly as in the
source equals generation without it — same tile types, elevations,
heights and vegetation — for every noise function and random stream. -/
theorem claim9_lower_bound_unused (noise : ℚ → ℚ → ℚ) (rand : Nat → ℚ) :
    generateMapFull noise rand = generateMap noise rand := by
  unfold generateMapFull generateMap
  rw [genStepFull_eq_genStep]

end WebStrategyGame
